import Mathlib

/-!
Verification of the resource-collection layer of `Rolling.py`, a read-only
AWS dashboard.  The Python source is shallowly embedded: JSON-like provider
responses become the inductive `Value`, Python `dict.get` becomes `dictGet`
(raising, i.e. `Except.error`, on a non-dict receiver, as `AttributeError`
does), the generic paginated collector `_paginate` becomes `navigate` /
`pageItems` / `paginate`, the four resource collectors and the Flask
request pipeline (`require_api_key`, `home`, `add_security_headers`) become
explicit functions over a `Provider` record describing the upstream AWS
responses for one request.
-/

/-- JSON-like values, the shape of AWS SDK (boto3) responses. -/
inductive Value where
  | vnull : Value
  | vbool : Bool → Value
  | vstr : String → Value
  | vnum : Int → Value
  | vlist : List Value → Value
  | vobj : List (String × Value) → Value

/-- First binding of `key` in an association list of object fields. -/
def lookupField : List (String × Value) → String → Option Value
  | [], _ => none
  | (k, v) :: rest, key => if k = key then some v else lookupField rest key

/-- Models Python `d.get(key, default)`: on a dict it returns the bound value
or the default; on any non-dict receiver the attribute access raises
(`AttributeError`), modelled as `Except.error ()`. -/
def dictGet (v : Value) (key : String) (default : Value) : Except Unit Value :=
  match v with
  | .vobj fs => .ok ((lookupField fs key).getD default)
  | _ => .error ()

/-- Models the navigation loop of `_paginate`
(`for key in result_keys: data = data.get(key, [])`): each step is a
`dict.get` with default `[]`. -/
def navigate (keys : List String) (v : Value) : Except Unit Value :=
  match keys with
  | [] => .ok v
  | k :: rest =>
    match dictGet v k (.vlist []) with
    | .ok v2 => navigate rest v2
    | .error e => .error e

/-- One page of `_paginate`: navigate the result keys; a list contributes its
items, any other navigated value contributes no items and emits a diagnostic
(the `logger.debug` branch), reported here as the `Bool` component. -/
def pageItems (keys : List String) (page : Value) : Except Unit (List Value × Bool) :=
  match navigate keys page with
  | .error e => .error e
  | .ok (.vlist xs) => .ok (xs, false)
  | .ok _ => .ok ([], true)

/-- A page of a paged provider operation: the response body plus the
pagination cursor (continuation token / marker) leading to the next page;
`none` models an absent or empty cursor. -/
structure Page where
  body : Value
  nextCursor : Option String

/-- Modelled from the spec: the SDK paginator (an external collaborator not
present in the source tree) drives the cursor protocol — it issues one call
per page and stops after the first page whose cursor is absent/empty.
`pagesFetched ps` is the prefix of the provider's page sequence actually
fetched by that protocol. -/
def pagesFetched : List Page → List Page
  | [] => []
  | p :: rest => if p.nextCursor.isSome then p :: pagesFetched rest else [p]

/-- A provider response of N pages: nonempty, every page except the last
carries a cursor, and the last page's cursor is absent. -/
def wellFormedPages : List Page → Bool
  | [] => false
  | [p] => p.nextCursor.isNone
  | p :: rest => p.nextCursor.isSome && wellFormedPages rest

/-- Concatenate the items extracted from a sequence of fetched pages,
propagating a raised navigation error. -/
def drainPages (keys : List String) : List Page → Except Unit (List Value)
  | [] => .ok []
  | p :: rest =>
    match pageItems keys p.body with
    | .error e => .error e
    | .ok (xs, _) =>
      match drainPages keys rest with
      | .error e => .error e
      | .ok ys => .ok (xs ++ ys)

/-- `_paginate` drained eagerly to a list: the items of every page the SDK
paginator fetches, in page order. -/
def paginate (keys : List String) (ps : List Page) : Except Unit (List Value) :=
  drainPages keys (pagesFetched ps)

/-- Number of provider calls issued by the paginator: one per fetched page. -/
def callCount (ps : List Page) : Nat :=
  (pagesFetched ps).length

/-- The item list of one page, for pages whose navigated value is a list. -/
def pageList (keys : List String) (p : Page) : List Value :=
  match navigate keys p.body with
  | .ok (.vlist xs) => xs
  | _ => []

theorem pagesFetched_of_wellFormed (ps : List Page) (h : wellFormedPages ps = true) :
    pagesFetched ps = ps := by
  induction ps with
  | nil => simp [wellFormedPages] at h
  | cons p rest ih =>
    cases rest with
    | nil =>
      simp [wellFormedPages] at h
      simp [pagesFetched, h]
    | cons q rest2 =>
      simp [wellFormedPages] at h
      have hq : pagesFetched (q :: rest2) = q :: rest2 := ih h.2
      rw [pagesFetched, if_pos h.1, hq]

theorem drainPages_of_lists (keys : List String) (ps : List Page)
    (h : ∀ p ∈ ps, ∃ xs, navigate keys p.body = .ok (.vlist xs)) :
    drainPages keys ps = .ok ((ps.map (pageList keys)).flatten) := by
  induction ps with
  | nil => simp [drainPages]
  | cons p rest ih =>
    obtain ⟨xs, hxs⟩ := h p (by simp)
    have hrest := ih (fun q hq => h q (by simp [hq]))
    simp [drainPages, pageItems, hxs, hrest, pageList]

/-- C1: for a provider operation whose paged response consists of N pages,
`_paginate` yields exactly the concatenation of all pages' item lists in page
order, issues exactly N calls (one per page, stopping after the page whose
cursor is absent), and the total item count is the sum of the per-page
counts. -/
theorem paginate_yields_concatenation_and_one_call_per_page
    (keys : List String) (ps : List Page)
    (hwf : wellFormedPages ps = true)
    (hnav : ∀ p ∈ ps, ∃ xs, navigate keys p.body = .ok (.vlist xs)) :
    paginate keys ps = .ok ((ps.map (pageList keys)).flatten) ∧
    callCount ps = ps.length ∧
    ((ps.map (pageList keys)).flatten).length
      = (ps.map (fun p => (pageList keys p).length)).sum := by
  have hf := pagesFetched_of_wellFormed ps hwf
  refine ⟨?_, ?_, ?_⟩
  · rw [paginate, hf]
    exact drainPages_of_lists keys ps hnav
  · rw [callCount, hf]
  · simp [List.length_flatten, Function.comp_def]

/-- Two concrete pages used to exercise the paginated collector. -/
def pageOne : Page :=
  { body := .vobj [("Items", .vlist [.vnum 1, .vnum 2])], nextCursor := some "tok" }

/-- The final page of the concrete two-page response: no cursor. -/
def pageTwo : Page :=
  { body := .vobj [("Items", .vlist [.vnum 3])], nextCursor := none }

theorem paginate_yields_concatenation_and_one_call_per_page_witness :
    paginate ["Items"] [pageOne, pageTwo]
      = .ok (([pageOne, pageTwo].map (pageList ["Items"])).flatten) ∧
    callCount [pageOne, pageTwo] = [pageOne, pageTwo].length ∧
    (([pageOne, pageTwo].map (pageList ["Items"])).flatten).length
      = ([pageOne, pageTwo].map (fun p => (pageList ["Items"] p).length)).sum :=
  paginate_yields_concatenation_and_one_call_per_page ["Items"] [pageOne, pageTwo]
    (by rfl)
    (by
      intro p hp
      simp only [List.mem_cons, List.not_mem_nil, or_false] at hp
      rcases hp with rfl | rfl
      · exact ⟨[.vnum 1, .vnum 2], rfl⟩
      · exact ⟨[.vnum 3], rfl⟩)

/-- C3 counterexample: with result keys `["a", "b"]` and a page in which the
intermediate navigated value is a string (not a mapping), the navigation of
`_paginate` raises (`data.get` on a non-dict — `AttributeError`), so the
claim that it never raises for every page shape is false. -/
theorem navigation_raises_on_nonmapping_intermediate :
    pageItems ["a", "b"] (.vobj [("a", .vstr "x")]) = .error () := rfl

/-- Every `dict.get` performed by the navigation has a dict receiver: the
page itself and every intermediate navigated value reached before the last
key is a mapping. -/
def navSafe (keys : List String) (v : Value) : Bool :=
  match keys with
  | [] => true
  | k :: rest =>
    match v with
    | .vobj fs => navSafe rest ((lookupField fs k).getD (.vlist []))
    | _ => false

theorem navigate_cons (k : String) (rest : List String) (fs : List (String × Value)) :
    navigate (k :: rest) (.vobj fs)
      = navigate rest ((lookupField fs k).getD (.vlist [])) := by
  simp [navigate, dictGet]

theorem pageItems_cons (k : String) (rest : List String) (fs : List (String × Value)) :
    pageItems (k :: rest) (.vobj fs)
      = pageItems rest ((lookupField fs k).getD (.vlist [])) := by
  simp [pageItems, navigate_cons]

/-- C3 (amended): the navigation never raises provided every intermediate
navigated value (including the page itself when at least one key is
navigated) is a mapping; when the navigated value is not a list the page
contributes zero items and the diagnostic is emitted. -/
theorem navigation_total_when_intermediates_are_mappings
    (keys : List String) (page : Value) (h : navSafe keys page = true) :
    ∃ v, navigate keys page = .ok v ∧
      pageItems keys page
        = .ok (match v with | Value.vlist xs => (xs, false) | _ => ([], true)) := by
  induction keys generalizing page with
  | nil =>
    refine ⟨page, rfl, ?_⟩
    cases page <;> rfl
  | cons k rest ih =>
    match page, h with
    | .vobj fs, h =>
      have h2 : navSafe rest ((lookupField fs k).getD (.vlist [])) = true := h
      obtain ⟨v, hnav, hpi⟩ := ih ((lookupField fs k).getD (.vlist [])) h2
      exact ⟨v, by rw [navigate_cons, hnav], by rw [pageItems_cons, hpi]⟩

theorem navigation_total_when_intermediates_are_mappings_witness :
    ∃ v, navigate ["Reservations"] (.vobj [("Reservations", .vstr "oops")]) = .ok v ∧
      pageItems ["Reservations"] (.vobj [("Reservations", .vstr "oops")])
        = .ok (match v with | Value.vlist xs => (xs, false) | _ => ([], true)) :=
  navigation_total_when_intermediates_are_mappings
    ["Reservations"] (.vobj [("Reservations", .vstr "oops")]) (by rfl)

/-- A normalized resource record: an ordered mapping of display-field names
to values, as built by the dict literals in the four collectors. -/
abbrev Rec := List (String × Value)

/-- Per-record projection of `_collect_instances`: the dict literal
`{"ID": ..., "State": ..., "Type": ..., "Public IP": ...}`, each field a
`dict.get` with its sentinel; the state name is the nested
`instance.get("State", {}).get("Name", "unknown")`. -/
def instToRecord (inst : Value) : Except Unit Rec :=
  match dictGet inst "InstanceId" (.vstr "N/A") with
  | .error e => .error e
  | .ok vid =>
    match dictGet inst "State" (.vobj []) with
    | .error e => .error e
    | .ok stObj =>
      match dictGet stObj "Name" (.vstr "unknown") with
      | .error e => .error e
      | .ok vst =>
        match dictGet inst "InstanceType" (.vstr "unknown") with
        | .error e => .error e
        | .ok vty =>
          match dictGet inst "PublicIpAddress" (.vstr "N/A") with
          | .error e => .error e
          | .ok vip =>
            .ok [("ID", vid), ("State", vst), ("Type", vty), ("Public IP", vip)]

/-- Per-record projection of `_collect_vpcs`:
`{"VPC ID": vpc.get("VpcId", "N/A"), "CIDR": vpc.get("CidrBlock", "N/A")}`. -/
def vpcToRecord (vpc : Value) : Except Unit Rec :=
  match dictGet vpc "VpcId" (.vstr "N/A") with
  | .error e => .error e
  | .ok v1 =>
    match dictGet vpc "CidrBlock" (.vstr "N/A") with
    | .error e => .error e
    | .ok v2 => .ok [("VPC ID", v1), ("CIDR", v2)]

/-- Per-record projection of `_collect_load_balancers`. -/
def lbToRecord (lb : Value) : Except Unit Rec :=
  match dictGet lb "LoadBalancerName" (.vstr "N/A") with
  | .error e => .error e
  | .ok v1 =>
    match dictGet lb "DNSName" (.vstr "N/A") with
    | .error e => .error e
    | .ok v2 => .ok [("LB Name", v1), ("DNS Name", v2)]

/-- Per-record projection of `_collect_amis`. -/
def amiToRecord (image : Value) : Except Unit Rec :=
  match dictGet image "ImageId" (.vstr "N/A") with
  | .error e => .error e
  | .ok v1 =>
    match dictGet image "Name" (.vstr "N/A") with
    | .error e => .error e
    | .ok v2 => .ok [("AMI ID", v1), ("Name", v2)]

/-- A normalized field value is either the raw record's upstream value for
`rawKey`, or, when that raw field is absent, the kind-specific sentinel. -/
def fieldOk (fs : List (String × Value)) (rawKey : String) (sentinel : Value)
    (v : Value) : Prop :=
  lookupField fs rawKey = some v ∨ (lookupField fs rawKey = none ∧ v = sentinel)

theorem fieldOk_getD (fs : List (String × Value)) (k : String) (s : Value) :
    fieldOk fs k s ((lookupField fs k).getD s) := by
  cases h : lookupField fs k <;> simp [fieldOk, h]

/-- C4: each of the four record projections yields a record containing every
field of its kind's fixed field set, each populated with the upstream value
when present and with the kind-specific sentinel when the raw field is
absent — never a null and never an omitted key; in particular a raw instance
record missing `PublicIpAddress` is normalized with public-IP `"N/A"`.  (The
raw instance record's `State` field, when present, is a mapping, per the
provider's response contract.) -/
theorem records_have_all_fields_with_sentinels
    (fs sfs gs hs ks : List (String × Value))
    (hState : lookupField fs "State" = some (.vobj sfs)
      ∨ (lookupField fs "State" = none ∧ sfs = [])) :
    (∃ vid vst vty vip,
      instToRecord (.vobj fs)
        = .ok [("ID", vid), ("State", vst), ("Type", vty), ("Public IP", vip)] ∧
      fieldOk fs "InstanceId" (.vstr "N/A") vid ∧
      fieldOk sfs "Name" (.vstr "unknown") vst ∧
      fieldOk fs "InstanceType" (.vstr "unknown") vty ∧
      fieldOk fs "PublicIpAddress" (.vstr "N/A") vip ∧
      (lookupField fs "PublicIpAddress" = none → vip = .vstr "N/A")) ∧
    (∃ v1 v2, vpcToRecord (.vobj gs) = .ok [("VPC ID", v1), ("CIDR", v2)] ∧
      fieldOk gs "VpcId" (.vstr "N/A") v1 ∧
      fieldOk gs "CidrBlock" (.vstr "N/A") v2) ∧
    (∃ v1 v2, lbToRecord (.vobj hs) = .ok [("LB Name", v1), ("DNS Name", v2)] ∧
      fieldOk hs "LoadBalancerName" (.vstr "N/A") v1 ∧
      fieldOk hs "DNSName" (.vstr "N/A") v2) ∧
    (∃ v1 v2, amiToRecord (.vobj ks) = .ok [("AMI ID", v1), ("Name", v2)] ∧
      fieldOk ks "ImageId" (.vstr "N/A") v1 ∧
      fieldOk ks "Name" (.vstr "N/A") v2) := by
  refine ⟨?_, ?_, ?_, ?_⟩
  · have hstObj : (lookupField fs "State").getD (.vobj []) = .vobj sfs := by
      rcases hState with h | ⟨h, rfl⟩ <;> simp [h]
    refine ⟨(lookupField fs "InstanceId").getD (.vstr "N/A"),
            (lookupField sfs "Name").getD (.vstr "unknown"),
            (lookupField fs "InstanceType").getD (.vstr "unknown"),
            (lookupField fs "PublicIpAddress").getD (.vstr "N/A"),
            ?_, fieldOk_getD _ _ _, fieldOk_getD _ _ _,
            fieldOk_getD _ _ _, fieldOk_getD _ _ _, ?_⟩
    · simp [instToRecord, dictGet, hstObj]
    · intro h
      simp [h]
  · exact ⟨(lookupField gs "VpcId").getD (.vstr "N/A"),
      (lookupField gs "CidrBlock").getD (.vstr "N/A"),
      by simp [vpcToRecord, dictGet], fieldOk_getD _ _ _, fieldOk_getD _ _ _⟩
  · exact ⟨(lookupField hs "LoadBalancerName").getD (.vstr "N/A"),
      (lookupField hs "DNSName").getD (.vstr "N/A"),
      by simp [lbToRecord, dictGet], fieldOk_getD _ _ _, fieldOk_getD _ _ _⟩
  · exact ⟨(lookupField ks "ImageId").getD (.vstr "N/A"),
      (lookupField ks "Name").getD (.vstr "N/A"),
      by simp [amiToRecord, dictGet], fieldOk_getD _ _ _, fieldOk_getD _ _ _⟩

theorem records_have_all_fields_with_sentinels_witness :
    (∃ vid vst vty vip,
      instToRecord (.vobj [])
        = .ok [("ID", vid), ("State", vst), ("Type", vty), ("Public IP", vip)] ∧
      fieldOk [] "InstanceId" (.vstr "N/A") vid ∧
      fieldOk [] "Name" (.vstr "unknown") vst ∧
      fieldOk [] "InstanceType" (.vstr "unknown") vty ∧
      fieldOk [] "PublicIpAddress" (.vstr "N/A") vip ∧
      (lookupField [] "PublicIpAddress" = none → vip = .vstr "N/A")) ∧
    (∃ v1 v2, vpcToRecord (.vobj []) = .ok [("VPC ID", v1), ("CIDR", v2)] ∧
      fieldOk [] "VpcId" (.vstr "N/A") v1 ∧
      fieldOk [] "CidrBlock" (.vstr "N/A") v2) ∧
    (∃ v1 v2, lbToRecord (.vobj []) = .ok [("LB Name", v1), ("DNS Name", v2)] ∧
      fieldOk [] "LoadBalancerName" (.vstr "N/A") v1 ∧
      fieldOk [] "DNSName" (.vstr "N/A") v2) ∧
    (∃ v1 v2, amiToRecord (.vobj []) = .ok [("AMI ID", v1), ("Name", v2)] ∧
      fieldOk [] "ImageId" (.vstr "N/A") v1 ∧
      fieldOk [] "Name" (.vstr "N/A") v2) :=
  records_have_all_fields_with_sentinels [] [] [] [] [] (Or.inr ⟨rfl, rfl⟩)

/-- Iterating an extracted value with `for x in v`: a list yields its
elements; on the non-list shapes reached by the collectors the per-item
dict access of the loop body raises, modelled as an error. -/
def asListIter (v : Value) : Except Unit (List Value) :=
  match v with
  | .vlist xs => .ok xs
  | _ => .error ()

/-- The records one reservation contributes in `_collect_instances`:
`for instance in reservation.get("Instances", [])`, projecting each. -/
def recordsOfReservation (r : Value) : Except Unit (List Rec) :=
  match dictGet r "Instances" (.vlist []) with
  | .error e => .error e
  | .ok insts =>
    match asListIter insts with
    | .error e => .error e
    | .ok xs => xs.mapM instToRecord

/-- Body of `_collect_instances`: paginate `describe_instances` with result
key `Reservations` (the running-state filter is applied provider-side, so
the pages already reflect it), then flatten the per-reservation records. -/
def instancesBody (pages : List Page) : Except Unit (List Rec) :=
  match paginate ["Reservations"] pages with
  | .error e => .error e
  | .ok reservations =>
    match reservations.mapM recordsOfReservation with
    | .error e => .error e
    | .ok recss => .ok recss.flatten

/-- A direct (non-paginator) SDK call returns a single response: the first
page of the provider's paged data for that operation. -/
def describeVpcsResp (pages : List Page) : Value :=
  match pages with
  | [] => .vobj []
  | p :: _ => p.body

/-- Body of `_collect_vpcs`: one direct `describe_vpcs()` call — not routed
through `_paginate` — then project `resp.get("Vpcs", [])`. -/
def vpcsBody (pages : List Page) : Except Unit (List Rec) :=
  match dictGet (describeVpcsResp pages) "Vpcs" (.vlist []) with
  | .error e => .error e
  | .ok vpcs =>
    match asListIter vpcs with
    | .error e => .error e
    | .ok xs => xs.mapM vpcToRecord

/-- Body of `_collect_load_balancers`: paginate `describe_load_balancers`
with result key `LoadBalancers`, projecting each record. -/
def lbBody (pages : List Page) : Except Unit (List Rec) :=
  match paginate ["LoadBalancers"] pages with
  | .error e => .error e
  | .ok lbs => lbs.mapM lbToRecord

/-- Body of `_collect_amis`: paginate `describe_images` with result key
`Images` (the `Owners=["self"]` filter is applied provider-side), projecting
each record. -/
def amiBody (pages : List Page) : Except Unit (List Rec) :=
  match paginate ["Images"] pages with
  | .error e => .error e
  | .ok images => images.mapM amiToRecord

/-- Upstream SDK failure kinds — the exception classes the source catches
(`NoCredentialsError` is a subclass of `BotoCoreError`, so every handler
that catches `BotoCoreError` catches it too). -/
inductive AwsErr where
  | noCredentialsError : AwsErr
  | clientError : String → AwsErr
  | botoCoreError : String → AwsErr
deriving Repr, DecidableEq

/-- A raised Python exception: an SDK failure, or an `AttributeError` from an
unexpected response shape (never caught by the collectors' handlers). -/
inductive PyErr where
  | aws : AwsErr → PyErr
  | attr : PyErr
deriving Repr, DecidableEq

/-- Common shape of the four collectors' `try/except`: an SDK failure from
the enumeration call is logged (`logger.exception(label)`) and re-raised;
shape errors are not caught and carry no log. Returns the outcome together
with the log lines written. -/
def runCollect (label : String) (body : List Page → Except Unit (List Rec))
    (pr : Except AwsErr (List Page)) : Except PyErr (List Rec) × List String :=
  match pr with
  | .error e => (.error (.aws e), [label])
  | .ok pages =>
    match body pages with
    | .ok recs => (.ok recs, [])
    | .error _ => (.error .attr, [])

/-- `_collect_instances` over the provider's paged response (or failure). -/
def collect_instances (pr : Except AwsErr (List Page)) :
    Except PyErr (List Rec) × List String :=
  runCollect "Failed to collect EC2 instances" instancesBody pr

/-- `_collect_vpcs` over the provider's paged response (or failure). -/
def collect_vpcs (pr : Except AwsErr (List Page)) :
    Except PyErr (List Rec) × List String :=
  runCollect "Failed to collect VPCs" vpcsBody pr

/-- `_collect_load_balancers` over the provider's paged response. -/
def collect_load_balancers (pr : Except AwsErr (List Page)) :
    Except PyErr (List Rec) × List String :=
  runCollect "Failed to collect load balancers" lbBody pr

/-- `_collect_amis` over the provider's paged response (or failure). -/
def collect_amis (pr : Except AwsErr (List Page)) :
    Except PyErr (List Rec) × List String :=
  runCollect "Failed to collect AMIs" amiBody pr

/-- `_fetch_identity`: `sts.get_caller_identity()`, then
`whoami.get("Account", "unknown")` and `whoami.get("Arn", "unknown")`. -/
def fetch_identity (resp : Except AwsErr Value) : Except PyErr (Value × Value) :=
  match resp with
  | .error e => .error (.aws e)
  | .ok whoami =>
    match dictGet whoami "Account" (.vstr "unknown") with
    | .error _ => .error .attr
    | .ok account =>
      match dictGet whoami "Arn" (.vstr "unknown") with
      | .error _ => .error .attr
      | .ok arn => .ok (account, arn)

/-- The upstream provider's behavior for one request: the identity response,
and for each enumeration operation either its paged response or an SDK
failure.  The instance pages already reflect the provider-side running-state
filter and the image pages the self-ownership filter. -/
structure Provider where
  identityResp : Except AwsErr Value
  instancePages : Except AwsErr (List Page)
  vpcPages : Except AwsErr (List Page)
  lbPages : Except AwsErr (List Page)
  amiPages : Except AwsErr (List Page)

/-- The body of an HTTP response the service renders. -/
inductive Body where
  | setupPage : Body
  | httpError : String → Body
  | internalError : Body
  | dashboard : Value → Value → List Rec → List Rec → List Rec → List Rec → Body

/-- Outcome of the route handler: HTTP status, rendered body, log lines
written, and the provider operations called, in order. -/
structure HomeOut where
  status : Nat
  body : Body
  logs : List String
  calls : List String

/-- Name of the identity-check operation. -/
def stsOp : String := "sts.get_caller_identity"

/-- Name of the instance-enumeration operation. -/
def instOp : String := "ec2.describe_instances"

/-- Name of the network-enumeration operation. -/
def vpcOp : String := "ec2.describe_vpcs"

/-- Name of the load-balancer-enumeration operation. -/
def lbOp : String := "elbv2.describe_load_balancers"

/-- Name of the image-enumeration operation. -/
def amiOp : String := "ec2.describe_images"

/-- The generic message of the 502 error page
(`abort(502, description=...)`). -/
def awsFailMsg : String := "Failed to query AWS APIs. Please try again later."

/-- The `/` route handler `home()`: the identity check runs first and any of
its SDK failures renders the setup page with HTTP 200; then the four
collections run in order, an SDK failure in any of them aborting with 502
and the generic message (no table data); an uncaught shape error becomes the
framework's generic 500 page. -/
def home (p : Provider) : HomeOut :=
  match fetch_identity p.identityResp with
  | .error (.aws _) => ⟨200, .setupPage, [], [stsOp]⟩
  | .error .attr => ⟨500, .internalError, [], [stsOp]⟩
  | .ok (account, arn) =>
    match collect_instances p.instancePages with
    | (.error (.aws _), l1) => ⟨502, .httpError awsFailMsg, l1, [stsOp, instOp]⟩
    | (.error .attr, l1) => ⟨500, .internalError, l1, [stsOp, instOp]⟩
    | (.ok instances, l1) =>
      match collect_vpcs p.vpcPages with
      | (.error (.aws _), l2) =>
        ⟨502, .httpError awsFailMsg, l1 ++ l2, [stsOp, instOp, vpcOp]⟩
      | (.error .attr, l2) =>
        ⟨500, .internalError, l1 ++ l2, [stsOp, instOp, vpcOp]⟩
      | (.ok vpcData, l2) =>
        match collect_load_balancers p.lbPages with
        | (.error (.aws _), l3) =>
          ⟨502, .httpError awsFailMsg, l1 ++ l2 ++ l3, [stsOp, instOp, vpcOp, lbOp]⟩
        | (.error .attr, l3) =>
          ⟨500, .internalError, l1 ++ l2 ++ l3, [stsOp, instOp, vpcOp, lbOp]⟩
        | (.ok lbData, l3) =>
          match collect_amis p.amiPages with
          | (.error (.aws _), l4) =>
            ⟨502, .httpError awsFailMsg, l1 ++ l2 ++ l3 ++ l4,
             [stsOp, instOp, vpcOp, lbOp, amiOp]⟩
          | (.error .attr, l4) =>
            ⟨500, .internalError, l1 ++ l2 ++ l3 ++ l4,
             [stsOp, instOp, vpcOp, lbOp, amiOp]⟩
          | (.ok amiData, l4) =>
            ⟨200, .dashboard account arn instances vpcData lbData amiData,
             l1 ++ l2 ++ l3 ++ l4, [stsOp, instOp, vpcOp, lbOp, amiOp]⟩

/-- First page of a two-page VPC enumeration: one network, cursor present. -/
def vpcPageA : Page :=
  { body := .vobj [("Vpcs", .vlist
      [.vobj [("VpcId", .vstr "vpc-a"), ("CidrBlock", .vstr "10.0.0.0/16")]])],
    nextCursor := some "next" }

/-- Second and final page of the VPC enumeration: one further network. -/
def vpcPageB : Page :=
  { body := .vobj [("Vpcs", .vlist
      [.vobj [("VpcId", .vstr "vpc-b"), ("CidrBlock", .vstr "10.1.0.0/16")]])],
    nextCursor := none }

/-- C2 counterexample: on a well-formed two-page networks response, the VPC
collection returns only the first page's record — `vpc-b` from the second
page is missing — because `_collect_vpcs` issues one direct `describe_vpcs()`
call instead of going through `_paginate`. -/
theorem vpc_collection_misses_second_page :
    wellFormedPages [vpcPageA, vpcPageB] = true ∧
    vpcsBody [vpcPageA, vpcPageB]
      = .ok [[("VPC ID", .vstr "vpc-a"), ("CIDR", .vstr "10.0.0.0/16")]] := by
  constructor
  · rfl
  · rfl

/-- C2 (amended): the instance, load-balancer and image aggregations collect
through the generic Paginated Collector, but the networks (VPC) enumeration
issues a single non-paginated call: its result depends only on the first
page of the provider's paged response, so records on later pages never
appear. -/
theorem vpc_collection_reads_only_first_page (p : Page) (rest : List Page) :
    vpcsBody (p :: rest) = vpcsBody [p] := rfl

theorem runCollect_error_aws (label : String)
    (body : List Page → Except Unit (List Rec))
    (pr : Except AwsErr (List Page)) (e : AwsErr)
    (h : (runCollect label body pr).1 = .error (.aws e)) :
    runCollect label body pr = (.error (.aws e), [label]) := by
  cases pr with
  | error e2 =>
    simp [runCollect] at h ⊢
    exact h
  | ok pages =>
    simp only [runCollect] at h ⊢
    cases hb : body pages with
    | ok recs => rw [hb] at h; simp at h
    | error u => rw [hb] at h; simp at h

theorem runCollect_ok (label : String)
    (body : List Page → Except Unit (List Rec))
    (pr : Except AwsErr (List Page)) (xs : List Rec)
    (h : (runCollect label body pr).1 = .ok xs) :
    runCollect label body pr = (.ok xs, []) := by
  cases pr with
  | error e2 => simp [runCollect] at h
  | ok pages =>
    simp only [runCollect] at h ⊢
    cases hb : body pages with
    | ok recs => rw [hb] at h; simp at h; simp [hb, h]
    | error u => rw [hb] at h; simp at h

/-- C5: when the identity check succeeds but one of the four aggregation
calls fails with an upstream SDK error (any earlier aggregations having
succeeded), the response status is in the 5xx range, the body is the
generic error page — no partial table data is rendered — and the log
carries the failing collection's message. -/
theorem upstream_failure_yields_5xx_no_partial_data
    (p : Provider) (a r : Value)
    (hid : fetch_identity p.identityResp = .ok (a, r))
    (hfail :
      (∃ e, (collect_instances p.instancePages).1 = .error (.aws e))
      ∨ ((∃ xs, (collect_instances p.instancePages).1 = .ok xs)
          ∧ (∃ e, (collect_vpcs p.vpcPages).1 = .error (.aws e)))
      ∨ ((∃ xs, (collect_instances p.instancePages).1 = .ok xs)
          ∧ (∃ xs, (collect_vpcs p.vpcPages).1 = .ok xs)
          ∧ (∃ e, (collect_load_balancers p.lbPages).1 = .error (.aws e)))
      ∨ ((∃ xs, (collect_instances p.instancePages).1 = .ok xs)
          ∧ (∃ xs, (collect_vpcs p.vpcPages).1 = .ok xs)
          ∧ (∃ xs, (collect_load_balancers p.lbPages).1 = .ok xs)
          ∧ (∃ e, (collect_amis p.amiPages).1 = .error (.aws e)))) :
    500 ≤ (home p).status ∧ (home p).status < 600 ∧
    (home p).body = .httpError awsFailMsg ∧
    (((∃ e, (collect_instances p.instancePages).1 = .error (.aws e))
        ∧ (home p).logs = ["Failed to collect EC2 instances"])
      ∨ ((∃ e, (collect_vpcs p.vpcPages).1 = .error (.aws e))
        ∧ (home p).logs = ["Failed to collect VPCs"])
      ∨ ((∃ e, (collect_load_balancers p.lbPages).1 = .error (.aws e))
        ∧ (home p).logs = ["Failed to collect load balancers"])
      ∨ ((∃ e, (collect_amis p.amiPages).1 = .error (.aws e))
        ∧ (home p).logs = ["Failed to collect AMIs"])) := by
  rcases hfail with ⟨e, h1⟩ | ⟨⟨x1, h1⟩, e, h2⟩ | ⟨⟨x1, h1⟩, ⟨x2, h2⟩, e, h3⟩
    | ⟨⟨x1, h1⟩, ⟨x2, h2⟩, ⟨x3, h3⟩, e, h4⟩
  · have e1 := runCollect_error_aws _ _ _ _ h1
    simp only [collect_instances] at e1
    simp [home, hid, collect_instances, e1]
  · have e1 := runCollect_ok _ _ _ _ h1
    have e2 := runCollect_error_aws _ _ _ _ h2
    simp only [collect_instances] at e1
    simp only [collect_vpcs] at e2
    simp [home, hid, collect_instances, collect_vpcs, e1, e2]
  · have e1 := runCollect_ok _ _ _ _ h1
    have e2 := runCollect_ok _ _ _ _ h2
    have e3 := runCollect_error_aws _ _ _ _ h3
    simp only [collect_instances] at e1
    simp only [collect_vpcs] at e2
    simp only [collect_load_balancers] at e3
    simp [home, hid, collect_instances, collect_vpcs, collect_load_balancers, e1, e2, e3]
  · have e1 := runCollect_ok _ _ _ _ h1
    have e2 := runCollect_ok _ _ _ _ h2
    have e3 := runCollect_ok _ _ _ _ h3
    have e4 := runCollect_error_aws _ _ _ _ h4
    simp only [collect_instances] at e1
    simp only [collect_vpcs] at e2
    simp only [collect_load_balancers] at e3
    simp only [collect_amis] at e4
    simp [home, hid, collect_instances, collect_vpcs, collect_load_balancers,
      collect_amis, e1, e2, e3, e4]

/-- A successful identity response for the concrete scenarios. -/
def identityOkResp : Value :=
  .vobj [("Account", .vstr "123456789012"),
         ("Arn", .vstr "arn:aws:iam::123456789012:user/demo")]

/-- Concrete provider: identity succeeds, instance enumeration fails with a
throttling client error, the remaining operations would succeed. -/
def throttledProvider : Provider :=
  { identityResp := .ok identityOkResp,
    instancePages := .error (.clientError "Throttling"),
    vpcPages := .ok [vpcPageB],
    lbPages := .ok [pageTwo],
    amiPages := .ok [pageTwo] }

theorem upstream_failure_yields_5xx_no_partial_data_witness :
    500 ≤ (home throttledProvider).status ∧ (home throttledProvider).status < 600 ∧
    (home throttledProvider).body = .httpError awsFailMsg ∧
    (((∃ e, (collect_instances throttledProvider.instancePages).1 = .error (.aws e))
        ∧ (home throttledProvider).logs = ["Failed to collect EC2 instances"])
      ∨ ((∃ e, (collect_vpcs throttledProvider.vpcPages).1 = .error (.aws e))
        ∧ (home throttledProvider).logs = ["Failed to collect VPCs"])
      ∨ ((∃ e, (collect_load_balancers throttledProvider.lbPages).1 = .error (.aws e))
        ∧ (home throttledProvider).logs = ["Failed to collect load balancers"])
      ∨ ((∃ e, (collect_amis throttledProvider.amiPages).1 = .error (.aws e))
        ∧ (home throttledProvider).logs = ["Failed to collect AMIs"])) :=
  upstream_failure_yields_5xx_no_partial_data throttledProvider
    (.vstr "123456789012") (.vstr "arn:aws:iam::123456789012:user/demo")
    (by rfl) (Or.inl ⟨.clientError "Throttling", by rfl⟩)

/-- Concrete provider for the no-credentials scenario. -/
def noCredProvider : Provider :=
  { identityResp := .error .noCredentialsError,
    instancePages := .ok [pageTwo],
    vpcPages := .ok [vpcPageB],
    lbPages := .ok [pageTwo],
    amiPages := .ok [pageTwo] }

/-- C6: when the identity check fails with the no-credentials condition, the
response status is 200 and the body is the setup-instructions page, not an
error page. -/
theorem no_credentials_renders_setup_page_with_200
    (p : Provider) (h : p.identityResp = .error .noCredentialsError) :
    (home p).status = 200 ∧ (home p).body = .setupPage := by
  simp [home, fetch_identity, h]

theorem no_credentials_renders_setup_page_with_200_witness :
    (home noCredProvider).status = 200 ∧ (home noCredProvider).body = .setupPage :=
  no_credentials_renders_setup_page_with_200 noCredProvider rfl

/-- Concrete provider identical to `noCredProvider` except that the identity
check fails with rejected credentials (a client error) instead. -/
def authErrProvider : Provider :=
  { identityResp := .error (.clientError "InvalidClientTokenId"),
    instancePages := .ok [pageTwo],
    vpcPages := .ok [vpcPageB],
    lbPages := .ok [pageTwo],
    amiPages := .ok [pageTwo] }

/-- C7 counterexample: a no-credentials identity failure and a
credentials-rejected identity failure produce byte-for-byte the same
outcome — same page, same status, and the same (empty) logs — so the
distinction between the two classes is not preserved in logs or errors. -/
theorem identity_failure_distinction_not_preserved :
    home noCredProvider = home authErrProvider ∧
    noCredProvider.identityResp ≠ authErrProvider.identityResp := by
  constructor
  · rfl
  · simp [noCredProvider, authErrProvider]

/-- C7 (amended): every identity-check SDK failure, NoCredentials and
AuthError alike, yields the identical outcome — setup page, HTTP 200, and no
log line — so while the two classes both lead to the setup page as the claim
says, the distinction between them is not recorded in logs or errors. -/
theorem identity_failures_collapse_to_identical_outcome
    (p : Provider) (e : AwsErr) (h : p.identityResp = .error e) :
    home p = ⟨200, .setupPage, [], [stsOp]⟩ := by
  simp [home, fetch_identity, h]

theorem identity_failures_collapse_to_identical_outcome_witness :
    home authErrProvider = ⟨200, .setupPage, [], [stsOp]⟩ :=
  identity_failures_collapse_to_identical_outcome authErrProvider
    (.clientError "InvalidClientTokenId") rfl

/-- Models `secrets.compare_digest` on strings: the comparison checks the
lengths and then scans every character position, accumulating the XOR
difference of each pair with a bitwise OR — it does not short-circuit at the
first mismatching position — and succeeds exactly when the accumulated
difference is zero. -/
def compare_digest (a b : String) : Bool :=
  (a.length == b.length)
    && ((a.data.zip b.data).foldl (fun acc p => acc ||| (p.1.toNat ^^^ p.2.toNat)) 0 == 0)

theorem lor_eq_zero (a b : Nat) : a ||| b = 0 ↔ a = 0 ∧ b = 0 := by
  constructor
  · intro h
    constructor
    · apply Nat.eq_of_testBit_eq
      intro k
      have hk := congrArg (fun n => Nat.testBit n k) h
      simp [Nat.testBit_lor] at hk
      simp [hk.1]
    · apply Nat.eq_of_testBit_eq
      intro k
      have hk := congrArg (fun n => Nat.testBit n k) h
      simp [Nat.testBit_lor] at hk
      simp [hk.2]
  · rintro ⟨rfl, rfl⟩
    rfl

theorem foldl_lor_eq_zero {α : Type} (f : α → Nat) (l : List α) (acc : Nat) :
    l.foldl (fun a x => a ||| f x) acc = 0 ↔ acc = 0 ∧ ∀ x ∈ l, f x = 0 := by
  induction l generalizing acc with
  | nil => simp
  | cons x xs ih =>
    simp only [List.foldl_cons, ih, lor_eq_zero, List.mem_cons]
    constructor
    · rintro ⟨⟨h1, h2⟩, h3⟩
      refine ⟨h1, fun y hy => ?_⟩
      rcases hy with rfl | hy
      · exact h2
      · exact h3 y hy
    · rintro ⟨h1, h2⟩
      exact ⟨⟨h1, h2 x (Or.inl rfl)⟩, fun y hy => h2 y (Or.inr hy)⟩

theorem mem_zip_self {α : Type} (l : List α) (q : α × α) (h : q ∈ l.zip l) :
    q.1 = q.2 := by
  induction l with
  | nil => simp at h
  | cons x xs ih =>
    rcases (by simpa using h : q = (x, x) ∨ q ∈ xs.zip xs) with rfl | hq
    · rfl
    · exact ih hq

theorem zip_chars_eq (xs ys : List Char) (hlen : xs.length = ys.length)
    (h : ∀ q ∈ xs.zip ys, q.1.toNat ^^^ q.2.toNat = 0) : xs = ys := by
  induction xs generalizing ys with
  | nil => cases ys with
    | nil => rfl
    | cons y yt => simp at hlen
  | cons x xt ih =>
    cases ys with
    | nil => simp at hlen
    | cons y yt =>
      have hx : x.toNat ^^^ y.toNat = 0 := h (x, y) (by simp)
      have hxy : x = y := by
        apply Char.ext
        exact UInt32.toNat.inj (Nat.xor_eq_zero.mp hx)
      have ht : xt = yt := by
        apply ih yt (by simpa using hlen)
        intro q hq
        exact h q (by simp [hq])
      rw [hxy, ht]

theorem compare_digest_eq_true_iff (a b : String) :
    compare_digest a b = true ↔ a = b := by
  constructor
  · intro h
    simp only [compare_digest, Bool.and_eq_true, beq_iff_eq] at h
    obtain ⟨hlen, hfold⟩ := h
    have hz := (foldl_lor_eq_zero (fun q : Char × Char => q.1.toNat ^^^ q.2.toNat)
      (a.data.zip b.data) 0).mp hfold
    have hdata : a.data = b.data := zip_chars_eq a.data b.data hlen hz.2
    cases a
    cases b
    simp_all
  · rintro rfl
    simp only [compare_digest, beq_self_eq_true, Bool.true_and, beq_iff_eq]
    rw [foldl_lor_eq_zero]
    refine ⟨rfl, ?_⟩
    intro q hq
    rw [mem_zip_self a.data q hq]
    simp

/-- Result of the `before_request` hook: either an aborted request with an
HTTP status and description, or permission to proceed to the route. -/
inductive GateResult where
  | abort : Nat → String → GateResult
  | proceed : GateResult
deriving Repr, DecidableEq

/-- The `before_request` hook `require_api_key`: aborts 503 when no API key
is configured (`API_KEY` unset or empty, both falsy), otherwise reads the
`X-API-Key` header (the empty string when absent) and aborts 401 unless the
constant-time comparison with the configured key succeeds. -/
def require_api_key (apiKey : Option String) (headerVal : Option String) : GateResult :=
  match apiKey with
  | none => .abort 503 "ROLLING_API_KEY is not set."
  | some k =>
    if k = "" then .abort 503 "ROLLING_API_KEY is not set."
    else if compare_digest (headerVal.getD "") k then .proceed
    else .abort 401 "Unauthorized."

/-- C8: with no shared secret configured (unset or empty) every request is
rejected with 503; with a secret configured, any header value other than the
exact secret — including the absent header, which compares as the empty
string — is rejected with 401, the comparison scanning all positions
(`compare_digest`) and succeeding exactly on equality; a matching header
lets the request proceed. -/
theorem api_key_gate_rejects_and_proceeds
    (cfg : Option String) (hdr : Option String) :
    ((cfg = none ∨ cfg = some "")
      → require_api_key cfg hdr = .abort 503 "ROLLING_API_KEY is not set.") ∧
    (∀ k, cfg = some k → k ≠ "" → hdr.getD "" ≠ k
      → require_api_key cfg hdr = .abort 401 "Unauthorized.") ∧
    (∀ k, cfg = some k → k ≠ "" → hdr.getD "" = k
      → require_api_key cfg hdr = .proceed) ∧
    (∀ a b : String, compare_digest a b = true ↔ a = b) := by
  refine ⟨?_, ?_, ?_, compare_digest_eq_true_iff⟩
  · rintro (rfl | rfl)
    · rfl
    · simp [require_api_key]
  · rintro k rfl hk hne
    have hcd : compare_digest (hdr.getD "") k ≠ true := fun hc =>
      hne ((compare_digest_eq_true_iff _ _).mp hc)
    simp [require_api_key, hk, hcd]
  · rintro k rfl hk heq
    have hcd : compare_digest (hdr.getD "") k = true := by
      rw [compare_digest_eq_true_iff]
      exact heq
    simp [require_api_key, hk, hcd]

theorem api_key_gate_rejects_and_proceeds_witness :
    require_api_key (some "s3cret") (some "s3cres") = .abort 401 "Unauthorized." ∧
    require_api_key (some "s3cret") none = .abort 401 "Unauthorized." ∧
    require_api_key none (some "s3cret") = .abort 503 "ROLLING_API_KEY is not set." ∧
    require_api_key (some "s3cret") (some "s3cret") = .proceed :=
  ⟨(api_key_gate_rejects_and_proceeds (some "s3cret") (some "s3cres")).2.1
      "s3cret" rfl (by decide) (by decide),
   (api_key_gate_rejects_and_proceeds (some "s3cret") none).2.1
      "s3cret" rfl (by decide) (by decide),
   (api_key_gate_rejects_and_proceeds none (some "s3cret")).1 (Or.inl rfl),
   (api_key_gate_rejects_and_proceeds (some "s3cret") (some "s3cret")).2.2.1
      "s3cret" rfl (by decide) (by decide)⟩

/-- The whole request pipeline for the `/` route: the API-key gate runs
before the route handler; an aborted request renders the abort's error page
and never reaches `home`, so no provider operation is called (`calls` and
`logs` empty). -/
def handle_request (apiKey : Option String) (headerVal : Option String)
    (p : Provider) : HomeOut :=
  match require_api_key apiKey headerVal with
  | .abort s d => ⟨s, .httpError d, [], []⟩
  | .proceed => home p

/-- C9: a request the shared-secret gate rejects — secret unconfigured,
header missing, or header mismatched — issues no outbound provider call:
the gate runs before the identity check and before any enumeration. -/
theorem rejected_requests_issue_no_provider_calls
    (apiKey headerVal : Option String) (p : Provider)
    (h : require_api_key apiKey headerVal ≠ .proceed) :
    (handle_request apiKey headerVal p).calls = [] := by
  unfold handle_request
  cases hg : require_api_key apiKey headerVal with
  | abort s d => rfl
  | proceed => exact absurd hg h

theorem rejected_requests_issue_no_provider_calls_witness :
    (handle_request (some "s3cret") none throttledProvider).calls = [] :=
  rejected_requests_issue_no_provider_calls (some "s3cret") none throttledProvider
    (by decide)

/-- Case-insensitive presence of a header name, as werkzeug's header mapping
treats names. -/
def hasHeader (hs : List (String × String)) (k : String) : Bool :=
  hs.any (fun q => q.1.toLower == k.toLower)

/-- `response.headers.setdefault(k, v)`: appends the header only when no
header of that name is already present. -/
def setdefaultHeader (hs : List (String × String)) (k v : String) :
    List (String × String) :=
  if hasHeader hs k then hs else hs ++ [(k, v)]

/-- The `after_request` hook `add_security_headers`: five `setdefault`s, in
source order. -/
def add_security_headers (hs : List (String × String)) : List (String × String) :=
  setdefaultHeader
    (setdefaultHeader
      (setdefaultHeader
        (setdefaultHeader
          (setdefaultHeader hs "Content-Security-Policy" "default-src \x27self\x27")
          "Referrer-Policy" "same-origin")
        "X-Content-Type-Options" "nosniff")
      "X-Frame-Options" "DENY")
    "Permissions-Policy" "geolocation=()"

/-- A finalized HTTP response: status, body, and headers after the
`after_request` hook. -/
structure HttpResponse where
  status : Nat
  body : Body
  headers : List (String × String)

/-- The complete per-request pipeline: the gate and route handler produce
the response (`handle_request`), and the `after_request` hook runs on every
response the service sends — rejections and error pages included.  `hs` is
whatever headers the response carries before the hook. -/
def service (apiKey headerVal : Option String) (p : Provider)
    (hs : List (String × String)) : HttpResponse :=
  ⟨(handle_request apiKey headerVal p).status,
   (handle_request apiKey headerVal p).body,
   add_security_headers hs⟩

theorem hasHeader_append (xs ys : List (String × String)) (k : String) :
    hasHeader (xs ++ ys) k = (hasHeader xs k || hasHeader ys k) := by
  simp [hasHeader]

theorem hasHeader_setdefault_self (hs : List (String × String)) (k v : String) :
    hasHeader (setdefaultHeader hs k v) k = true := by
  by_cases h : hasHeader hs k = true
  · simp [setdefaultHeader, h]
  · rw [setdefaultHeader, if_neg h, hasHeader_append]
    have h2 : hasHeader [(k, v)] k = true := by
      simp [hasHeader]
    simp [h2]

theorem hasHeader_setdefault_mono (hs : List (String × String)) (k v k2 : String)
    (h : hasHeader hs k2 = true) :
    hasHeader (setdefaultHeader hs k v) k2 = true := by
  by_cases hk : hasHeader hs k = true
  · simpa [setdefaultHeader, hk]
  · simp [setdefaultHeader, hk, hasHeader_append, h]

theorem setdefault_extends (hs hs2 : List (String × String)) (k v : String)
    (h : ∃ e, hs2 = hs ++ e ∧ ∀ q ∈ e, hasHeader hs q.1 = false) :
    ∃ e, setdefaultHeader hs2 k v = hs ++ e ∧ ∀ q ∈ e, hasHeader hs q.1 = false := by
  obtain ⟨e, rfl, he⟩ := h
  by_cases hk : hasHeader (hs ++ e) k = true
  · exact ⟨e, by simp [setdefaultHeader, hk], he⟩
  · refine ⟨e ++ [(k, v)], by simp [setdefaultHeader, hk], ?_⟩
    intro q hq
    rcases List.mem_append.mp hq with h1 | h2
    · exact he q h1
    · have hq2 : q = (k, v) := by simpa using h2
      subst hq2
      rw [hasHeader_append] at hk
      simp only [Bool.or_eq_true, not_or] at hk
      simpa using Bool.eq_false_iff.mpr hk.1

/-- C10: every HTTP response the service produces — the setup page, the
401/503 rejections, the 5xx error pages and the dashboard alike — carries
the five security headers, and the hook adds only header names not already
present, leaving existing headers untouched. -/
theorem all_responses_carry_security_headers
    (apiKey headerVal : Option String) (p : Provider)
    (hs : List (String × String)) :
    (hasHeader (service apiKey headerVal p hs).headers "Content-Security-Policy" = true ∧
     hasHeader (service apiKey headerVal p hs).headers "Referrer-Policy" = true ∧
     hasHeader (service apiKey headerVal p hs).headers "X-Content-Type-Options" = true ∧
     hasHeader (service apiKey headerVal p hs).headers "X-Frame-Options" = true ∧
     hasHeader (service apiKey headerVal p hs).headers "Permissions-Policy" = true) ∧
    (∃ e, add_security_headers hs = hs ++ e ∧ ∀ q ∈ e, hasHeader hs q.1 = false) := by
  have hserv : (service apiKey headerVal p hs).headers = add_security_headers hs := rfl
  constructor
  · rw [hserv]
    unfold add_security_headers
    refine ⟨?_, ?_, ?_, ?_, ?_⟩
    · exact hasHeader_setdefault_mono _ _ _ _ (hasHeader_setdefault_mono _ _ _ _
        (hasHeader_setdefault_mono _ _ _ _ (hasHeader_setdefault_mono _ _ _ _
          (hasHeader_setdefault_self _ _ _))))
    · exact hasHeader_setdefault_mono _ _ _ _ (hasHeader_setdefault_mono _ _ _ _
        (hasHeader_setdefault_mono _ _ _ _ (hasHeader_setdefault_self _ _ _)))
    · exact hasHeader_setdefault_mono _ _ _ _ (hasHeader_setdefault_mono _ _ _ _
        (hasHeader_setdefault_self _ _ _))
    · exact hasHeader_setdefault_mono _ _ _ _ (hasHeader_setdefault_self _ _ _)
    · exact hasHeader_setdefault_self _ _ _
  · unfold add_security_headers
    exact setdefault_extends _ _ _ _ (setdefault_extends _ _ _ _
      (setdefault_extends _ _ _ _ (setdefault_extends _ _ _ _
        (setdefault_extends _ _ _ _ ⟨[], by simp, by simp⟩))))

theorem all_responses_carry_security_headers_witness :
    (hasHeader (service none none noCredProvider [("Content-Type", "text/html")]).headers
        "Content-Security-Policy" = true ∧
     hasHeader (service none none noCredProvider [("Content-Type", "text/html")]).headers
        "Referrer-Policy" = true ∧
     hasHeader (service none none noCredProvider [("Content-Type", "text/html")]).headers
        "X-Content-Type-Options" = true ∧
     hasHeader (service none none noCredProvider [("Content-Type", "text/html")]).headers
        "X-Frame-Options" = true ∧
     hasHeader (service none none noCredProvider [("Content-Type", "text/html")]).headers
        "Permissions-Policy" = true) ∧
    (∃ e, add_security_headers [("Content-Type", "text/html")]
        = [("Content-Type", "text/html")] ++ e ∧
      ∀ q ∈ e, hasHeader [("Content-Type", "text/html")] q.1 = false) :=
  all_responses_carry_security_headers none none noCredProvider
    [("Content-Type", "text/html")]
